import Mathlib

/-!
Shallow embedding of the MiniLinkeldlin backend (Express + Mongoose) in Lean 4.

Document ids (Mongo ObjectIds) are modelled as `String` (their hex string
form, which is what the routes compare via `toString()`).  Each route
handler becomes a pure function from the request data and the relevant
document stores to a result record carrying the HTTP status, the response
message and the post-state of every store the handler touches.  Mongoose
`pre('save')` hooks are modelled as explicit save functions applied
whenever the corresponding route calls `.save()`.
-/

namespace MiniLinkeldlin

/-! ## Data model (src/server/models) -/

/-- Status enum of `connectionSchema` (models/Connection.js). -/
inductive ConnStatus
| pending
| accepted
| declined
| blocked
deriving DecidableEq

/-- The slice of `userSchema` (models/User.js) the routes under study read
and write: id, display name, and the social edges. -/
structure UserDoc where
  id : String
  name : String
  connections : List String
  following : List String
deriving DecidableEq

/-- `connectionSchema` (models/Connection.js): a directed request edge. -/
structure ConnectionDoc where
  requester : String
  recipient : String
  status : ConnStatus
  message : String
deriving DecidableEq

/-- `notificationSchema` (models/Notification.js), denormalized text plus
references; `id` is the document id assigned by the store. -/
structure NotificationDoc where
  id : String := ""
  recipient : String
  sender : String
  ntype : String
  title : String
  message : String
deriving DecidableEq

/-- Embedded comment sub-document of `postSchema` (models/Post.js). -/
structure CommentDoc where
  user : String
  content : String
deriving DecidableEq

/-- Embedded share sub-document of `postSchema` (models/Post.js). -/
structure ShareDoc where
  user : String
  sharedAt : Nat := 0
deriving DecidableEq

/-- `postSchema` (models/Post.js): the fields read or written by the post
routes and the feed query. -/
structure PostDoc where
  author : String
  content : String
  ptype : String := "text"
  hashtags : List String := []
  likes : List String := []
  comments : List CommentDoc := []
  shares : List ShareDoc := []
  visibility : String := "public"
  engagementScore : Nat := 0
  createdAt : Nat := 0
deriving DecidableEq

/-- `messageSchema` (src/unnamed/part_004): a direct message; an empty
`conversationId` models the field being unset before the save hook runs. -/
structure MessageDoc where
  sender : String
  recipient : String
  content : String
  mtype : String := "text"
  conversationId : String := ""
  readAt : Option Nat := none
deriving DecidableEq

/-- Embedded application sub-document of `jobSchema` (models/Job.js). -/
structure JobApplication where
  applicant : String
  coverLetter : String
  resumeUrl : String
  status : String := "applied"
deriving DecidableEq

/-- `jobSchema` (models/Job.js): the fields the apply route touches. -/
structure JobDoc where
  title : String
  poster : String
  applications : List JobApplication
  isActive : Bool := true
deriving DecidableEq

/-! ## Connection routes (src/server/routes/connections.js) -/

/-- JS `String.prototype.trim()`: strip leading and trailing whitespace. -/
def jsTrim (s : String) : String :=
  String.mk (((s.data.dropWhile Char.isWhitespace).reverse.dropWhile
    Char.isWhitespace).reverse)

/-- JS `String.prototype.toLowerCase()` on the character list (ASCII). -/
def jsToLower (s : String) : String :=
  String.mk (s.data.map Char.toLower)

/-- Mongo `$addToSet`: append the value only when it is absent. -/
def addToSet (s : List String) (x : String) : List String :=
  if x ∈ s then s else s ++ [x]

/-- The per-document effect of
`User.findByIdAndUpdate(uid, \x7b $addToSet: \x7b connections: x \x7d \x7d)`:
touch the document with id `uid`, leave every other one unchanged. -/
def applyAddToSet (uid x : String) (u : UserDoc) : UserDoc :=
  if u.id = uid then { u with connections := addToSet u.connections x } else u

/-- `User.findByIdAndUpdate(uid, \x7b $addToSet: \x7b connections: x \x7d \x7d)`:
the store after adding `x` to the connection set of the user with id `uid`. -/
def addConnectionTo (users : List UserDoc) (uid x : String) : List UserDoc :=
  users.map (applyAddToSet uid x)

/-- Result of the accept/decline handler: HTTP status, response message,
the connection document after the handler, and the post-state of the user
and notification stores. -/
structure ConnActionResult where
  status : Nat
  body : String
  conn : Option ConnectionDoc
  users : List UserDoc
  notifs : List NotificationDoc
deriving DecidableEq

/-- `router.put('/request/:id/:action')` (connections.js lines 112-173).
`conn?` is the result of `Connection.findById(id)`, `actor` is `req.user`. -/
def processConnectionRequest (action : String) (conn? : Option ConnectionDoc)
    (actor : UserDoc) (users : List UserDoc) (notifs : List NotificationDoc) :
    ConnActionResult :=
  if action ≠ "accept" ∧ action ≠ "decline" then
    ⟨400, "Invalid action", conn?, users, notifs⟩
  else
    match conn? with
    | none => ⟨404, "Connection request not found", none, users, notifs⟩
    | some conn =>
      if conn.recipient ≠ actor.id then
        ⟨403, "Not authorized", some conn, users, notifs⟩
      else if conn.status ≠ ConnStatus.pending then
        ⟨400, "Connection request already processed", some conn, users, notifs⟩
      else if action = "accept" then
        let conn' : ConnectionDoc := { conn with status := ConnStatus.accepted }
        let users1 := addConnectionTo users conn.requester conn.recipient
        let users2 := addConnectionTo users1 conn.recipient conn.requester
        let notif : NotificationDoc :=
          { recipient := conn.requester, sender := actor.id,
            ntype := "connection_accepted", title := "Connection Accepted",
            message := actor.name ++ " accepted your connection request" }
        ⟨200, "Connection request accepted", some conn', users2, notifs ++ [notif]⟩
      else
        ⟨200, "Connection request declined",
          some { conn with status := ConnStatus.declined }, users, notifs⟩

/-- Result of the send-request handler. -/
structure SendReqResult where
  status : Nat
  body : String
  conns : List ConnectionDoc
  notifs : List NotificationDoc
deriving DecidableEq

/-- `router.post('/request')` (connections.js lines 10-69).  `userId` is the
target account id from the body, `conns` the Connection store. -/
def sendConnectionRequest (actor : UserDoc) (userId message : String)
    (users : List UserDoc) (conns : List ConnectionDoc)
    (notifs : List NotificationDoc) : SendReqResult :=
  if userId = "" then
    ⟨400, "User ID is required", conns, notifs⟩
  else if userId = actor.id then
    ⟨400, "Cannot connect to yourself", conns, notifs⟩
  else if ¬ users.any (fun u => u.id = userId) then
    ⟨404, "User not found", conns, notifs⟩
  else if conns.any (fun c =>
      (c.requester = actor.id ∧ c.recipient = userId) ∨
      (c.requester = userId ∧ c.recipient = actor.id)) then
    ⟨400, "Connection request already exists or you are already connected", conns, notifs⟩
  else
    let conn : ConnectionDoc :=
      { requester := actor.id, recipient := userId,
        status := ConnStatus.pending, message := jsTrim message }
    let notif : NotificationDoc :=
      { recipient := userId, sender := actor.id,
        ntype := "connection_request", title := "New Connection Request",
        message := actor.name ++ " wants to connect with you" }
    ⟨201, "Connection request sent successfully", conns ++ [conn], notifs ++ [notif]⟩

/-! ## Post model hook and post routes (models/Post.js and the post router
embedded in src/server/routes/connections.js) -/

/-- `postSchema.pre('save')` (models/Post.js lines 104-108): recompute the
engagement score from the current like/comment/share counts. -/
def savePost (p : PostDoc) : PostDoc :=
  { p with engagementScore := p.likes.length + p.comments.length + p.shares.length * 2 }

/-- `router.post('/')` create-post handler (connections.js lines 479-511):
reject blank content, lowercase the submitted hashtags, save. -/
def createPost (author : String) (content : String) (hashtags : List String)
    (now : Nat) : Except (Nat × String) PostDoc :=
  if jsTrim content = "" then
    Except.error (400, "Post content is required")
  else
    Except.ok (savePost
      { author := author, content := jsTrim content,
        hashtags := hashtags.map jsToLower, createdAt := now })

/-- `router.post('/:id/like')` (connections.js lines 560-610): toggle the
requester in the like set and save. -/
def likePost (p : PostDoc) (uid : String) : PostDoc :=
  if uid ∈ p.likes then
    savePost { p with likes := p.likes.filter (fun i => i ≠ uid) }
  else
    savePost { p with likes := p.likes ++ [uid] }

/-- `router.post('/:id/comment')` (connections.js lines 613-660): reject
blank content, otherwise append a comment sub-document and save. -/
def addComment (p : PostDoc) (uid content : String) :
    Except (Nat × String) PostDoc :=
  if jsTrim content = "" then
    Except.error (400, "Comment content is required")
  else
    Except.ok (savePost
      { p with comments := p.comments ++ [{ user := uid, content := jsTrim content }] })

/-- `router.post('/:id/share')` (connections.js lines 663-702): reject a
second share from the same account, otherwise append and save. -/
def sharePost (p : PostDoc) (uid : String) : Except (Nat × String) PostDoc :=
  if p.shares.any (fun s => s.user = uid) then
    Except.error (400, "Post already shared")
  else
    Except.ok (savePost { p with shares := p.shares ++ [{ user := uid }] })

/-- The filter of the feed query in `router.get('/feed')` (connections.js
lines 514-545): authored by the requester, a connection or a followed
account, or trending (`engagementScore ≥ 10`), and publicly/connections
visible. -/
def feedFilter (me : UserDoc) (p : PostDoc) : Bool :=
  (decide (p.author ∈ me.connections ++ me.following ++ [me.id]) ||
    decide (10 ≤ p.engagementScore)) &&
  (p.visibility = "public" || p.visibility = "connections")

/-- The sort key order of `.sort(\x7b createdAt: -1, engagementScore: -1 \x7d)`:
`p` may precede `q` when it was created later, or at the same time with at
least the same engagement score. -/
def FeedBefore (p q : PostDoc) : Prop :=
  q.createdAt < p.createdAt ∨
    (p.createdAt = q.createdAt ∧ q.engagementScore ≤ p.engagementScore)

instance : DecidableRel FeedBefore := fun p q => by
  unfold FeedBefore; exact inferInstance

instance : IsTotal PostDoc FeedBefore :=
  ⟨fun p q => by unfold FeedBefore; omega⟩

instance : IsTrans PostDoc FeedBefore :=
  ⟨fun p q r hpq hqr => by unfold FeedBefore at *; omega⟩

/-- The feed candidate list: the store filtered by the feed query and
sorted by the two descending sort keys. -/
def getFeedAll (me : UserDoc) (posts : List PostDoc) : List PostDoc :=
  List.insertionSort FeedBefore (posts.filter (feedFilter me))

/-- The feed page returned by `router.get('/feed')` after
`.limit(limit).skip((page - 1) * limit)`. -/
def getFeedPage (me : UserDoc) (posts : List PostDoc) (page limit : Nat) :
    List PostDoc :=
  ((getFeedAll me posts).drop ((page - 1) * limit)).take limit

/-! ## Hashtag extraction
(src/Frontend/src/pages/Posts/CreatePostPage.tsx lines 22-25):
`text.match(/#(\w+)/g)` then strip the `#` and lowercase. -/

/-- `\w` of the JS regex: ASCII letters, digits and underscore. -/
def isWordChar (c : Char) : Bool :=
  c.isAlphanum || c = '_'

/-- Left-to-right scan equivalent to iterating `/#(\w+)/g`: `none` means
outside a candidate match, `some acc` means a `#` was seen and `acc` holds
the word characters read so far (already lowercased). -/
def hashtagScan : List Char → Option String → List String
| [], none => []
| [], some acc => if acc = "" then [] else [acc]
| c :: rest, none =>
    if c = '#' then hashtagScan rest (some "") else hashtagScan rest none
| c :: rest, some acc =>
    if isWordChar c then hashtagScan rest (some (acc.push c.toLower))
    else
      let st : Option String := if c = '#' then some "" else none
      if acc = "" then hashtagScan rest st else acc :: hashtagScan rest st

/-- `extractHashtags` (CreatePostPage.tsx lines 22-25). -/
def extractHashtags (text : String) : List String :=
  hashtagScan text.data none

/-! ## Message model hook and message routes (src/unnamed/part_004 and the
message router embedded in src/server/routes/notifications.js) -/

/-- The string comparison behind `[a, b].sort()`: lexicographic on the
character sequences (for the hex ObjectId strings being sorted here this
coincides with the UTF-16 code-unit comparison JS uses). -/
def codeUnitLe : List Char → List Char → Bool
| [], _ => true
| _ :: _, [] => false
| a :: as, b :: bs =>
    if a < b then true
    else if b < a then false
    else codeUnitLe as bs

/-- `a` sorts no later than `b` under the JS default string comparison. -/
def strLe (a b : String) : Bool :=
  codeUnitLe a.data b.data

/-- The conversation key: the two participant ids sorted and joined with an
underscore, as in `[a, b].sort().join('_')`. -/
def conversationId (a b : String) : String :=
  if strLe a b then a ++ "_" ++ b else b ++ "_" ++ a

/-- `messageSchema.pre('save')` (part_004 lines 40-47): derive
`conversationId` when it is not already set. -/
def messagePreSave (m : MessageDoc) : MessageDoc :=
  if m.conversationId = "" then
    { m with conversationId := conversationId m.sender m.recipient }
  else m

/-- `router.post('/')` send-message handler (notifications.js message
router lines 142-177): build the message with no conversation id and save,
which runs the pre-save hook. -/
def sendMessage (sender recipient content : String) : MessageDoc :=
  messagePreSave { sender := sender, recipient := recipient, content := content }

/-- The `Message.updateMany` shared by `router.get('/conversation/:userId')`
(lines 194-202) and `router.put('/read/:conversationId')` (lines 304-326):
stamp `readAt` on the unread messages of the conversation addressed to the
requester. -/
def markConversationRead (msgs : List MessageDoc) (convId me : String)
    (now : Nat) : List MessageDoc :=
  msgs.map fun m =>
    if m.conversationId = convId ∧ m.recipient = me ∧ m.readAt = none then
      { m with readAt := some now }
    else m

/-- Effect of `router.get('/conversation/:userId')` on the message store:
it derives the conversation id from the two participants and then runs the
shared mark-as-read update. -/
def getConversationEffect (me other : String) (msgs : List MessageDoc)
    (now : Nat) : List MessageDoc :=
  markConversationRead msgs (conversationId me other) me now

/-- Effect of `router.put('/read/:conversationId')` on the message store. -/
def markReadEffect (me convId : String) (msgs : List MessageDoc)
    (now : Nat) : List MessageDoc :=
  markConversationRead msgs convId me now

/-! ## Job routes (src/server/routes/jobs.js) -/

/-- Result of the apply handler: HTTP status, response message, the job
document after the handler, and the notification store. -/
structure ApplyResult where
  status : Nat
  body : String
  job : Option JobDoc
  notifs : List NotificationDoc
deriving DecidableEq

/-- `router.post('/:id/apply')` (jobs.js lines 143-193). -/
def applyToJob (job? : Option JobDoc) (actor : UserDoc)
    (coverLetter resumeUrl : String) (notifs : List NotificationDoc) :
    ApplyResult :=
  match job? with
  | none => ⟨404, "Job not found", none, notifs⟩
  | some job =>
    if ¬ job.isActive then
      ⟨400, "Job posting is no longer active", some job, notifs⟩
    else if job.applications.any (fun a => a.applicant = actor.id) then
      ⟨400, "You have already applied to this job", some job, notifs⟩
    else
      let job' : JobDoc :=
        { job with applications := job.applications ++
            [{ applicant := actor.id, coverLetter := coverLetter, resumeUrl := resumeUrl }] }
      let notif : NotificationDoc :=
        { recipient := job.poster, sender := actor.id, ntype := "job_match",
          title := "New Job Application",
          message := actor.name ++ " applied to your job: " ++ job.title }
      ⟨200, "Application submitted successfully", some job', notifs ++ [notif]⟩

/-! ## Notification delete routes and Express dispatch
(src/server/routes/notifications.js lines 93-132) -/

/-- An Express path pattern for a single segment: a `:param` segment
matches any value, a literal segment only itself. -/
inductive RoutePattern
| param
| lit (s : String)
deriving DecidableEq

/-- Whether a single-segment pattern matches a path segment. -/
def patternMatches : RoutePattern → String → Bool
| RoutePattern.param, _ => true
| RoutePattern.lit s, path => path = s

/-- The two DELETE handlers of the notification router. -/
inductive NotifDeleteHandler
| byId
| clearAll
deriving DecidableEq

/-- The DELETE routes in registration order: `'/:id'` (line 94) is
registered before `'/clear-all'` (line 120). -/
def notifDeleteRoutes : List (RoutePattern × NotifDeleteHandler) :=
  [(RoutePattern.param, NotifDeleteHandler.byId),
   (RoutePattern.lit "clear-all", NotifDeleteHandler.clearAll)]

/-- Express routing: the first registered route whose pattern matches the
path handles the request. -/
def dispatchDelete (path : String) : Option NotifDeleteHandler :=
  (notifDeleteRoutes.find? (fun r => patternMatches r.1 path)).map (fun r => r.2)

/-- A hex digit as accepted in a Mongo ObjectId string. -/
def isHexChar (c : Char) : Bool :=
  c.isDigit || ('a' ≤ c && c ≤ 'f') || ('A' ≤ c && c ≤ 'F')

/-- Mongoose casts route ids to ObjectId: 24 hex characters; anything else
makes `findById` throw a CastError, which the catch block turns into 500. -/
def isValidObjectId (s : String) : Bool :=
  s.length = 24 && s.data.all isHexChar

/-- Result of a notification DELETE request: HTTP status, response
message, and the notification store afterwards. -/
structure NotifDeleteResult where
  status : Nat
  body : String
  store : List NotificationDoc
deriving DecidableEq

/-- `router.delete('/:id')` (notifications.js lines 94-117): look the
notification up by id, check ownership, delete it. -/
def deleteNotificationById (id actorId : String)
    (store : List NotificationDoc) : NotifDeleteResult :=
  if ¬ isValidObjectId id then
    ⟨500, "Error deleting notification", store⟩
  else
    match store.find? (fun n => n.id = id) with
    | none => ⟨404, "Notification not found", store⟩
    | some n =>
      if n.recipient ≠ actorId then
        ⟨403, "Not authorized", store⟩
      else
        ⟨200, "Notification deleted", store.filter (fun m => m.id ≠ id)⟩

/-- `router.delete('/clear-all')` (notifications.js lines 120-132):
`Notification.deleteMany(\x7b recipient: req.user._id \x7d)` and report the
deleted count. -/
def clearAllNotifications (actorId : String) (store : List NotificationDoc) :
    NotifDeleteResult :=
  let deleted := (store.filter (fun n => n.recipient = actorId)).length
  ⟨200, "Deleted " ++ toString deleted ++ " notifications",
    store.filter (fun n => ¬ n.recipient = actorId)⟩

/-- A DELETE request against the notification router: Express picks the
first matching route and runs its handler. -/
def handleNotificationDelete (path actorId : String)
    (store : List NotificationDoc) : NotifDeleteResult :=
  match dispatchDelete path with
  | some NotifDeleteHandler.byId => deleteNotificationById path actorId store
  | some NotifDeleteHandler.clearAll => clearAllNotifications actorId store
  | none => ⟨404, "", store⟩

/-! ## Helper lemmas -/

theorem codeUnitLe_total : ∀ as bs : List Char,
    codeUnitLe as bs = true ∨ codeUnitLe bs as = true
  | [], [] => Or.inl rfl
  | [], _ :: _ => Or.inl rfl
  | _ :: _, [] => Or.inr rfl
  | a :: as, b :: bs => by
    by_cases hab : a < b
    · left; simp [codeUnitLe, hab]
    · by_cases hba : b < a
      · right; simp [codeUnitLe, hba]
      · have ih := codeUnitLe_total as bs
        simpa [codeUnitLe, hab, hba] using ih

theorem codeUnitLe_antisymm : ∀ as bs : List Char,
    codeUnitLe as bs = true → codeUnitLe bs as = true → as = bs
  | [], [], _, _ => rfl
  | [], _ :: _, _, h2 => by simp [codeUnitLe] at h2
  | _ :: _, [], h1, _ => by simp [codeUnitLe] at h1
  | a :: as, b :: bs, h1, h2 => by
    by_cases hab : a < b
    · have hba := Char.lt_asymm hab
      simp [codeUnitLe, hab, hba] at h2
    · by_cases hba : b < a
      · simp [codeUnitLe, hab, hba] at h1
      · have hab' : a ≤ b := Char.not_lt.mp hba
        have hba' : b ≤ a := Char.not_lt.mp hab
        have heq : a = b := Char.le_antisymm hab' hba'
        have ih := codeUnitLe_antisymm as bs
          (by simpa [codeUnitLe, hab, hba] using h1)
          (by simpa [codeUnitLe, hab, hba] using h2)
        rw [heq, ih]

theorem strLe_antisymm {a b : String} (h1 : strLe a b = true)
    (h2 : strLe b a = true) : a = b := by
  cases a with
  | mk as =>
    cases b with
    | mk bs => exact congrArg String.mk (codeUnitLe_antisymm as bs h1 h2)

theorem self_mem_addToSet (s : List String) (x : String) : x ∈ addToSet s x := by
  unfold addToSet
  split
  · assumption
  · simp

theorem mem_addToSet_of_mem {s : List String} {y : String} (x : String)
    (h : y ∈ s) : y ∈ addToSet s x := by
  unfold addToSet
  split
  · exact h
  · simp [h]

theorem nodup_addToSet {s : List String} (x : String) (h : s.Nodup) :
    (addToSet s x).Nodup := by
  unfold addToSet
  split
  · exact h
  · simpa [List.nodup_append, h]

theorem addConnectionTo_getElem? (users : List UserDoc) (uid x : String)
    (i : Nat) :
    (addConnectionTo users uid x)[i]? = users[i]?.map (applyAddToSet uid x) := by
  simp [addConnectionTo]

theorem id_applyAddToSet (uid x : String) (u : UserDoc) :
    (applyAddToSet uid x u).id = u.id := by
  unfold applyAddToSet
  split <;> rfl

theorem mem_applyAddToSet_self {uid : String} (x : String) {u : UserDoc}
    (h : u.id = uid) : x ∈ (applyAddToSet uid x u).connections := by
  unfold applyAddToSet
  rw [if_pos h]
  exact self_mem_addToSet _ _

theorem mem_applyAddToSet_of_mem (uid x : String) {u : UserDoc} {y : String}
    (h : y ∈ u.connections) : y ∈ (applyAddToSet uid x u).connections := by
  unfold applyAddToSet
  split
  · exact mem_addToSet_of_mem _ h
  · exact h

theorem nodup_applyAddToSet (uid x : String) {u : UserDoc}
    (h : u.connections.Nodup) : (applyAddToSet uid x u).connections.Nodup := by
  unfold applyAddToSet
  split
  · exact nodup_addToSet _ h
  · exact h

theorem applyAddToSet_of_ne {uid : String} (x : String) {u : UserDoc}
    (h : u.id ≠ uid) : applyAddToSet uid x u = u := by
  unfold applyAddToSet
  rw [if_neg h]

/-! ## Claims -/

/-- Claim C2: `conversationId` is a pure function of the unordered pair of
participant ids, symmetric in its arguments, and every message saved
between the same two accounts — in either direction, on every send — is
assigned that same conversation id. -/
theorem conversationId_symmetric_and_stable :
    (∀ a b : String, conversationId a b = conversationId b a) ∧
    (∀ s r content : String,
      (sendMessage s r content).conversationId = conversationId s r) ∧
    (∀ s r content : String,
      (sendMessage r s content).conversationId = conversationId s r) := by
  have hsym : ∀ a b : String, conversationId a b = conversationId b a := by
    intro a b
    unfold conversationId
    by_cases h1 : strLe a b
    · by_cases h2 : strLe b a
      · have heq : a = b := strLe_antisymm h1 h2
        subst heq; rfl
      · simp [h1, h2]
    · have h2 : strLe b a = true := by
        rcases codeUnitLe_total a.data b.data with h | h
        · exact absurd h h1
        · exact h
      simp [h1, h2]
  refine ⟨hsym, ?_, ?_⟩
  · intro s r content
    simp [sendMessage, messagePreSave]
  · intro s r content
    simp [sendMessage, messagePreSave, hsym s r]

/-- Claim C1: accepting a pending request as its recipient sets the request
to accepted and puts each participant in the other one's connection set via
`$addToSet`, preserving duplicate-freeness and leaving unrelated users
untouched. -/
theorem accept_pending_request_symmetric (conn : ConnectionDoc)
    (actor : UserDoc) (users : List UserDoc) (notifs : List NotificationDoc)
    (hpend : conn.status = ConnStatus.pending)
    (hrecip : conn.recipient = actor.id) :
    (processConnectionRequest "accept" (some conn) actor users notifs).status = 200 ∧
    (processConnectionRequest "accept" (some conn) actor users notifs).conn =
      some { conn with status := ConnStatus.accepted } ∧
    (processConnectionRequest "accept" (some conn) actor users notifs).users.length =
      users.length ∧
    ∀ i : Nat, ∀ u : UserDoc, users[i]? = some u →
      ∃ u' : UserDoc,
        (processConnectionRequest "accept" (some conn) actor users notifs).users[i]? =
          some u' ∧
        u'.id = u.id ∧
        (u.id = conn.requester → conn.recipient ∈ u'.connections) ∧
        (u.id = conn.recipient → conn.requester ∈ u'.connections) ∧
        (u.connections.Nodup → u'.connections.Nodup) ∧
        (u.id ≠ conn.requester ∧ u.id ≠ conn.recipient → u' = u) := by
  have hproc : processConnectionRequest "accept" (some conn) actor users notifs =
      ⟨200, "Connection request accepted",
        some { conn with status := ConnStatus.accepted },
        addConnectionTo (addConnectionTo users conn.requester conn.recipient)
          conn.recipient conn.requester,
        notifs ++ [({ recipient := conn.requester,
                      sender := actor.id,
                      ntype := "connection_accepted",
                      title := "Connection Accepted",
                      message := actor.name ++ " accepted your connection request" } :
                        NotificationDoc)]⟩ := by
    unfold processConnectionRequest
    simp [hrecip, hpend]
  refine ⟨by rw [hproc], by rw [hproc], ?_, ?_⟩
  · rw [hproc]
    simp [addConnectionTo]
  · intro i u hu
    rw [hproc]
    dsimp only
    rw [addConnectionTo_getElem?, addConnectionTo_getElem?, hu]
    simp only [Option.map_some']
    refine ⟨_, rfl, ?_, ?_, ?_, ?_, ?_⟩
    · rw [id_applyAddToSet, id_applyAddToSet]
    · intro hq
      exact mem_applyAddToSet_of_mem _ _ (mem_applyAddToSet_self _ hq)
    · intro hr
      exact mem_applyAddToSet_self _ ((id_applyAddToSet _ _ _).trans hr)
    · intro hnd
      exact nodup_applyAddToSet _ _ (nodup_applyAddToSet _ _ hnd)
    · intro hne
      rw [applyAddToSet_of_ne _ (by rw [id_applyAddToSet]; exact hne.2),
        applyAddToSet_of_ne _ hne.1]

/-- Concrete pending request used by the C1 witness. -/
def connPendingW : ConnectionDoc :=
  { requester := "a", recipient := "b", status := ConnStatus.pending, message := "" }

/-- Concrete requester account used by the C1 witness. -/
def userAW : UserDoc := { id := "a", name := "Alice", connections := [], following := [] }

/-- Concrete recipient account used by the C1 witness. -/
def userBW : UserDoc := { id := "b", name := "Bob", connections := [], following := [] }

/-- Witness for C1 at a concrete pending request between two accounts. -/
theorem accept_pending_request_symmetric_witness :
    connPendingW.status = ConnStatus.pending ∧
    (processConnectionRequest "accept" (some connPendingW) userBW [userAW, userBW] []).status = 200 ∧
    (∃ u' : UserDoc,
      (processConnectionRequest "accept" (some connPendingW) userBW [userAW, userBW] []).users[0]? =
        some u' ∧ "b" ∈ u'.connections) := by
  have h := accept_pending_request_symmetric connPendingW userBW [userAW, userBW] [] rfl rfl
  refine ⟨rfl, h.1, ?_⟩
  obtain ⟨u', h1, _, h3, _⟩ := h.2.2.2 0 userAW rfl
  exact ⟨u', h1, h3 rfl⟩

/-- Counterexample to Claim C8 as stated: the accept handler does contain a
status check; invoked on an already-accepted request it rejects with 400
"Connection request already processed". -/
theorem accept_already_processed_counterexample :
    (processConnectionRequest "accept"
      (some { requester := "a", recipient := "b",
              status := ConnStatus.accepted, message := "" })
      { id := "b", name := "Bob", connections := ["a"], following := [] }
      [] []).status = 400 ∧
    (processConnectionRequest "accept"
      (some { requester := "a", recipient := "b",
              status := ConnStatus.accepted, message := "" })
      { id := "b", name := "Bob", connections := ["a"], following := [] }
      [] []).body = "Connection request already processed" := by
  constructor <;> rfl

/-- Claim C8 amended: the accept handler rejects any request that is no
longer pending with 400 "Connection request already processed", changing
nothing — its own status guard (besides the pair-uniqueness index) is what
prevents accepting twice. -/
theorem accept_nonpending_rejected (conn : ConnectionDoc) (actor : UserDoc)
    (users : List UserDoc) (notifs : List NotificationDoc)
    (hrecip : conn.recipient = actor.id)
    (hst : conn.status ≠ ConnStatus.pending) :
    processConnectionRequest "accept" (some conn) actor users notifs =
      ⟨400, "Connection request already processed", some conn, users, notifs⟩ := by
  unfold processConnectionRequest
  simp [hrecip, hst]

/-- Witness for the amended C8 at a concrete accepted request. -/
theorem accept_nonpending_rejected_witness :
    (ConnectionDoc.status
      { requester := "a", recipient := "b",
        status := ConnStatus.accepted, message := "" } ≠ ConnStatus.pending) ∧
    processConnectionRequest "accept"
      (some { requester := "a", recipient := "b",
              status := ConnStatus.accepted, message := "" })
      { id := "b", name := "Bo", connections := ["a"], following := [] } [] [] =
      ⟨400, "Connection request already processed",
        some { requester := "a", recipient := "b",
               status := ConnStatus.accepted, message := "" }, [], []⟩ :=
  ⟨by decide,
    accept_nonpending_rejected _
      { id := "b", name := "Bo", connections := ["a"], following := [] }
      [] [] rfl (by decide)⟩

/-- Claim C4: sending a connection request between two existing, distinct
accounts is rejected with the conflict error whenever any request between
them already exists — in either direction and with any status — and the
failure creates neither a connection request nor a notification. -/
theorem send_request_conflict (actor : UserDoc) (userId message : String)
    (users : List UserDoc) (conns : List ConnectionDoc)
    (notifs : List NotificationDoc)
    (hid : userId ≠ "")
    (hself : userId ≠ actor.id)
    (htarget : ∃ u ∈ users, u.id = userId)
    (hexist : ∃ c ∈ conns,
      (c.requester = actor.id ∧ c.recipient = userId) ∨
      (c.requester = userId ∧ c.recipient = actor.id)) :
    sendConnectionRequest actor userId message users conns notifs =
      ⟨400, "Connection request already exists or you are already connected",
        conns, notifs⟩ := by
  have hany : users.any (fun u => u.id = userId) = true := by
    rcases htarget with ⟨u, hu, hid'⟩
    exact List.any_eq_true.mpr ⟨u, hu, by simpa using hid'⟩
  have hcon : conns.any (fun c =>
      (c.requester = actor.id ∧ c.recipient = userId) ∨
      (c.requester = userId ∧ c.recipient = actor.id)) = true := by
    rcases hexist with ⟨c, hc, hor⟩
    exact List.any_eq_true.mpr ⟨c, hc, by simpa using hor⟩
  unfold sendConnectionRequest
  rw [if_neg hid, if_neg hself, if_neg (by simp [hany]), if_pos (by simpa using hexist)]

/-- Target account of the C4 witness. -/
def userB4 : UserDoc := { id := "b", name := "Bob", connections := [], following := [] }

/-- Requesting account of the C4 witness. -/
def userA4 : UserDoc := { id := "a", name := "Alice", connections := [], following := [] }

/-- Pre-existing reverse-direction, already-accepted request of the C4
witness. -/
def connAccepted4 : ConnectionDoc :=
  { requester := "b", recipient := "a", status := ConnStatus.accepted, message := "" }

/-- Witness for C4: a reverse-direction accepted request already exists, so
the send is rejected and the stores are unchanged. -/
theorem send_request_conflict_witness :
    ("b" : String) ≠ "" ∧
    sendConnectionRequest userA4 "b" "hello" [userA4, userB4] [connAccepted4] [] =
      ⟨400, "Connection request already exists or you are already connected",
        [connAccepted4], []⟩ :=
  ⟨by decide,
    send_request_conflict userA4 "b" "hello" [userA4, userB4] [connAccepted4] []
      (by decide) (by decide) ⟨userB4, by simp, rfl⟩
      ⟨connAccepted4, by simp, Or.inr ⟨rfl, rfl⟩⟩⟩

/-- The stored-score identity of Claim C3. -/
def engagementInvariant (p : PostDoc) : Prop :=
  p.engagementScore = p.likes.length + p.comments.length + p.shares.length * 2

instance (p : PostDoc) : Decidable (engagementInvariant p) := by
  unfold engagementInvariant; exact inferInstance

/-- Claim C3: after every mutating operation that persists a post — create,
like or unlike, comment append, share — the stored engagement score equals
likes + comments + 2 times shares. -/
theorem post_engagement_score_invariant :
    (∀ (author content : String) (hashtags : List String) (now : Nat)
        (p : PostDoc),
      createPost author content hashtags now = Except.ok p →
        engagementInvariant p) ∧
    (∀ (p : PostDoc) (uid : String), engagementInvariant (likePost p uid)) ∧
    (∀ (p : PostDoc) (uid content : String) (q : PostDoc),
      addComment p uid content = Except.ok q → engagementInvariant q) ∧
    (∀ (p : PostDoc) (uid : String) (q : PostDoc),
      sharePost p uid = Except.ok q → engagementInvariant q) := by
  have hsave : ∀ x : PostDoc, engagementInvariant (savePost x) := fun _ => rfl
  refine ⟨?_, ?_, ?_, ?_⟩
  · intro author content hashtags now p hp
    unfold createPost at hp
    split at hp
    · exact Except.noConfusion hp
    · simp only [Except.ok.injEq] at hp
      subst hp
      exact hsave _
  · intro p uid
    unfold likePost
    split
    · exact hsave _
    · exact hsave _
  · intro p uid content q hq
    unfold addComment at hq
    split at hq
    · exact Except.noConfusion hq
    · simp only [Except.ok.injEq] at hq
      subst hq
      exact hsave _
  · intro p uid q hq
    unfold sharePost at hq
    split at hq
    · exact Except.noConfusion hq
    · simp only [Except.ok.injEq] at hq
      subst hq
      exact hsave _

/-- Fresh post used by the C3 witness. -/
def post3 : PostDoc := { author := "a", content := "hello" }

/-- The post produced by `createPost` in the C3 witness. -/
def created3 : PostDoc := { author := "a", content := "hello" }

/-- The post after the comment append of the C3 witness. -/
def commented3 : PostDoc :=
  { author := "a", content := "hello",
    comments := [{ user := "u", content := "nice" }], engagementScore := 1 }

/-- The post after the share of the C3 witness. -/
def shared3 : PostDoc :=
  { author := "a", content := "hello",
    shares := [{ user := "u" }], engagementScore := 2 }

/-- Witness for C3 at concrete posts for each of the four operations. -/
theorem post_engagement_score_invariant_witness :
    engagementInvariant created3 ∧
    engagementInvariant (likePost post3 "u") ∧
    engagementInvariant commented3 ∧
    engagementInvariant shared3 :=
  ⟨post_engagement_score_invariant.1 "a" "hello" [] 0 created3 rfl,
    post_engagement_score_invariant.2.1 post3 "u",
    post_engagement_score_invariant.2.2.1 post3 "u" "nice" commented3 rfl,
    post_engagement_score_invariant.2.2.2 post3 "u" shared3 rfl⟩

/-- Post already liked by account "a", refuting C5 as stated "for any
starting state". -/
def post5 : PostDoc := { author := "b", content := "c", likes := ["a"] }

/-- Counterexample to Claim C5 as stated: starting from a state in which
the account already likes the post, three invocations of the like endpoint
end with the account unliked, not with the like count one above the
starting count and the id present once. -/
theorem like_toggle_counterexample :
    ¬ ((likePost (likePost (likePost post5 "a") "a") "a").likes.length =
        post5.likes.length + 1 ∧
      (likePost (likePost (likePost post5 "a") "a") "a").likes.count "a" = 1) := by
  decide

/-- Claim C5 amended: the like endpoint is a membership toggle — liking an
already-liked post removes the id by filtering, duplicate-freeness of the
like set is preserved, and from any starting state in which the account
has NOT liked the post, three invocations (like, unlike, like) end with the
like count exactly one above the starting count and the id present exactly
once. -/
theorem like_toggle_amended (p : PostDoc) (uid : String) :
    (uid ∈ p.likes →
      (likePost p uid).likes = p.likes.filter (fun i => i ≠ uid)) ∧
    (p.likes.Nodup → (likePost p uid).likes.Nodup) ∧
    (uid ∉ p.likes →
      (likePost (likePost (likePost p uid) uid) uid).likes.length =
        p.likes.length + 1 ∧
      (likePost (likePost (likePost p uid) uid) uid).likes.count uid = 1) := by
  have hlike : ∀ q : PostDoc, uid ∉ q.likes →
      (likePost q uid).likes = q.likes ++ [uid] := by
    intro q hq
    unfold likePost
    rw [if_neg hq]
    rfl
  have hunlike : ∀ q : PostDoc, uid ∈ q.likes →
      (likePost q uid).likes = q.likes.filter (fun i => i ≠ uid) := by
    intro q hq
    unfold likePost
    rw [if_pos hq]
    rfl
  refine ⟨hunlike p, ?_, ?_⟩
  · intro hnd
    unfold likePost
    split
    · exact List.Nodup.filter _ hnd
    · next hmem =>
        have hnd' : (p.likes ++ [uid]).Nodup := by
          simp [List.nodup_append, hnd, hmem]
        exact hnd'
  · intro hu
    have h1 : (likePost p uid).likes = p.likes ++ [uid] := hlike p hu
    have hmem : uid ∈ (likePost p uid).likes := by
      rw [h1]; exact List.mem_append_right _ (List.mem_singleton.mpr rfl)
    have hfilter : p.likes.filter (fun i => i ≠ uid) = p.likes :=
      List.filter_eq_self.mpr fun a ha => by
        simpa using fun h : a = uid => hu (h ▸ ha)
    have h2 : (likePost (likePost p uid) uid).likes = p.likes := by
      rw [hunlike _ hmem, h1, List.filter_append, hfilter]
      simp
    have h3 : (likePost (likePost (likePost p uid) uid) uid).likes =
        p.likes ++ [uid] := by
      rw [hlike _ (h2 ▸ hu), h2]
    constructor
    · rw [h3]
      simp
    · rw [h3, List.count_append]
      simp [List.count_eq_zero.mpr hu]

/-- Post not yet liked by account "a", used by the C5 witness. -/
def post5b : PostDoc := { author := "b", content := "c", likes := ["x"] }

/-- Witness for the amended C5 at concrete posts: the unlike equation on an
already-liked post, and the like/unlike/like count on a not-yet-liked
post. -/
theorem like_toggle_amended_witness :
    (likePost post5 "a").likes = post5.likes.filter (fun i => i ≠ "a") ∧
    ("a" ∉ post5b.likes) ∧
    (likePost (likePost (likePost post5b "a") "a") "a").likes.length =
      post5b.likes.length + 1 ∧
    (likePost (likePost (likePost post5b "a") "a") "a").likes.count "a" = 1 :=
  ⟨(like_toggle_amended post5 "a").1 (by decide), by decide,
    ((like_toggle_amended post5b "a").2.2 (by decide)).1,
    ((like_toggle_amended post5b "a").2.2 (by decide)).2⟩

/-- Claim C6: applying to an inactive job, or applying twice as the same
account, is rejected with the conflict error and leaves the application
list unchanged; on success exactly one application for the applicant is
appended. -/
theorem apply_to_job_spec (job : JobDoc) (actor : UserDoc)
    (coverLetter resumeUrl : String) (notifs : List NotificationDoc) :
    (job.isActive = false →
      applyToJob (some job) actor coverLetter resumeUrl notifs =
        ⟨400, "Job posting is no longer active", some job, notifs⟩) ∧
    (job.isActive = true →
      (∃ a ∈ job.applications, a.applicant = actor.id) →
      applyToJob (some job) actor coverLetter resumeUrl notifs =
        ⟨400, "You have already applied to this job", some job, notifs⟩) ∧
    (job.isActive = true →
      (∀ a ∈ job.applications, a.applicant ≠ actor.id) →
      (applyToJob (some job) actor coverLetter resumeUrl notifs).status = 200 ∧
      (applyToJob (some job) actor coverLetter resumeUrl notifs).job =
        some { job with applications := job.applications ++
          [{ applicant := actor.id, coverLetter := coverLetter,
             resumeUrl := resumeUrl }] }) := by
  refine ⟨?_, ?_, ?_⟩
  · intro hinact
    simp [applyToJob, hinact]
  · intro hact hdup
    have hany : job.applications.any (fun a => a.applicant = actor.id) = true := by
      rcases hdup with ⟨a, ha, hid⟩
      exact List.any_eq_true.mpr ⟨a, ha, by simpa using hid⟩
    simp [applyToJob, hact, hany]
  · intro hact hnodup
    have hany : job.applications.any (fun a => a.applicant = actor.id) = false := by
      simp only [List.any_eq_false, decide_eq_true_eq]
      exact hnodup
    have happ : applyToJob (some job) actor coverLetter resumeUrl notifs =
        ⟨200, "Application submitted successfully",
          some { job with applications := job.applications ++
            [{ applicant := actor.id, coverLetter := coverLetter,
               resumeUrl := resumeUrl }] },
          notifs ++ [({ recipient := job.poster,
                        sender := actor.id,
                        ntype := "job_match",
                        title := "New Job Application",
                        message := actor.name ++ " applied to your job: " ++ job.title } :
                          NotificationDoc)]⟩ := by
      simp [applyToJob, hact, hany]
    rw [happ]
    exact ⟨rfl, rfl⟩

/-- The inactive job of the C6 witness, with one existing application. -/
def job6 : JobDoc :=
  { title := "Engineer", poster := "p",
    applications := [{ applicant := "x", coverLetter := "", resumeUrl := "" }],
    isActive := false }

/-- The active counterpart of `job6`, used for the duplicate and success
cases of the C6 witness. -/
def job6active : JobDoc :=
  { title := "Engineer", poster := "p",
    applications := [{ applicant := "x", coverLetter := "", resumeUrl := "" }],
    isActive := true }

/-- Applicant of the C6 witness. -/
def applicant6 : UserDoc := { id := "x", name := "Xa", connections := [], following := [] }

/-- A second applicant of the C6 witness, not yet applied. -/
def applicant6b : UserDoc := { id := "y", name := "Ya", connections := [], following := [] }

/-- Witness for C6: the inactive rejection, the duplicate rejection, and
the successful single append, each at a concrete job. -/
theorem apply_to_job_spec_witness :
    applyToJob (some job6) applicant6b "c" "r" [] =
      ⟨400, "Job posting is no longer active", some job6, []⟩ ∧
    applyToJob (some job6active) applicant6 "c" "r" [] =
      ⟨400, "You have already applied to this job", some job6active, []⟩ ∧
    (applyToJob (some job6active) applicant6b "c" "r" []).status = 200 ∧
    (applyToJob (some job6active) applicant6b "c" "r" []).job =
      some { job6active with applications := job6active.applications ++
        [{ applicant := "y", coverLetter := "c", resumeUrl := "r" }] } := by
  refine ⟨(apply_to_job_spec job6 applicant6b "c" "r" []).1 rfl,
    (apply_to_job_spec job6active applicant6 "c" "r" []).2.1 rfl
      ⟨{ applicant := "x", coverLetter := "", resumeUrl := "" }, by simp [job6active], rfl⟩,
    ?_, ?_⟩
  · exact ((apply_to_job_spec job6active applicant6b "c" "r" []).2.2 rfl
      (by intro a ha; simp [job6active] at ha; simp [ha, applicant6b])).1
  · exact ((apply_to_job_spec job6active applicant6b "c" "r" []).2.2 rfl
      (by intro a ha; simp [job6active] at ha; simp [ha, applicant6b])).2

/-- Requesting account of the C7 scenario: zero connections, zero
follows. -/
def user7 : UserDoc := { id := "a", name := "A", connections := [], following := [] }

/-- The post the C7 scenario creates from content "Hello #test". -/
def helloPost : PostDoc :=
  { author := "a", content := "Hello #test", hashtags := ["test"], createdAt := 5 }

/-- Claim C7: the feed candidate set is exactly the posts authored by the
requester, a connection or a followed account, union the trending posts
(engagement at least 10), restricted to public/connections visibility, and
the result is sorted by creation time descending with engagement score as
the secondary key; an account with zero connections sees its own fresh
"Hello #test" post in its feed, and hashtag extraction on "Hello #test"
yields ["test"]. -/
theorem feed_membership_order_and_scenario :
    (∀ (me : UserDoc) (posts : List PostDoc) (p : PostDoc),
      p ∈ getFeedAll me posts ↔ p ∈ posts ∧ feedFilter me p = true) ∧
    (∀ (me : UserDoc) (posts : List PostDoc),
      List.Sorted FeedBefore (getFeedAll me posts)) ∧
    createPost "a" "Hello #test" (extractHashtags "Hello #test") 5 =
      Except.ok helloPost ∧
    helloPost ∈ getFeedPage user7 [helloPost] 1 10 ∧
    extractHashtags "Hello #test" = ["test"] := by
  refine ⟨?_, ?_, by rfl, by decide, by decide⟩
  · intro me posts p
    unfold getFeedAll
    rw [(List.perm_insertionSort FeedBefore (posts.filter (feedFilter me))).mem_iff]
    exact List.mem_filter
  · intro me posts
    exact List.sorted_insertionSort FeedBefore (posts.filter (feedFilter me))

/-- First notification of the C9 failing input, owned by account "u1". -/
def notif9a : NotificationDoc :=
  { id := "aaaaaaaaaaaaaaaaaaaaaaaa", recipient := "u1", sender := "u2",
    ntype := "post_like", title := "Post Liked", message := "u2 liked your post" }

/-- Second notification of the C9 failing input, owned by account "u1". -/
def notif9b : NotificationDoc :=
  { id := "bbbbbbbbbbbbbbbbbbbbbbbb", recipient := "u1", sender := "u2",
    ntype := "post_comment", title := "New Comment", message := "u2 commented on your post" }

/-- Claim C9 evaluated at its failing input: `DELETE /clear-all` is
captured by the earlier-registered `'/:id'` route, whose handler casts
"clear-all" as an ObjectId, fails, and answers 500 — no notification of
the requester is deleted and no success with a deleted count is
returned. -/
theorem clear_all_shadowed_by_id_route :
    dispatchDelete "clear-all" = some NotifDeleteHandler.byId ∧
    handleNotificationDelete "clear-all" "u1" [notif9a, notif9b] =
      ⟨500, "Error deleting notification", [notif9a, notif9b]⟩ ∧
    clearAllNotifications "u1" [notif9a, notif9b] =
      ⟨200, "Deleted 2 notifications", []⟩ := by
  refine ⟨by decide, by decide, by decide⟩

/-- Claim C10: the conversation fetch and the explicit mark-read endpoint
stamp `readAt` exactly on the stored messages of the addressed
conversation whose recipient is the requester and whose `readAt` is still
null; every other message — sent by the requester, already read, or of
another conversation — is returned unchanged, and no field other than
`readAt` is touched. -/
theorem mark_read_frame (msgs : List MessageDoc) (convId me : String)
    (now : Nat) :
    (markConversationRead msgs convId me now).length = msgs.length ∧
    (∀ (i : Nat) (m : MessageDoc), msgs[i]? = some m →
      ((m.conversationId = convId ∧ m.recipient = me ∧ m.readAt = none) →
        (markConversationRead msgs convId me now)[i]? =
          some { m with readAt := some now }) ∧
      (¬ (m.conversationId = convId ∧ m.recipient = me ∧ m.readAt = none) →
        (markConversationRead msgs convId me now)[i]? = some m)) ∧
    (∀ other : String, getConversationEffect me other msgs now =
      markConversationRead msgs (conversationId me other) me now) ∧
    markReadEffect me convId msgs now = markConversationRead msgs convId me now := by
  refine ⟨by simp [markConversationRead], ?_, fun _ => rfl, rfl⟩
  intro i m hm
  constructor
  · intro hc
    unfold markConversationRead
    rw [List.getElem?_map, hm]
    simp only [Option.map_some']
    rw [if_pos hc]
  · intro hc
    unfold markConversationRead
    rw [List.getElem?_map, hm]
    simp only [Option.map_some']
    rw [if_neg hc]

/-- The unread inbound message of the C10 witness. -/
def msg10 : MessageDoc :=
  { sender := "a", recipient := "b", content := "hi", conversationId := "a_b" }

/-- An already-read inbound message of the C10 witness. -/
def msg10read : MessageDoc :=
  { sender := "a", recipient := "b", content := "yo",
    conversationId := "a_b", readAt := some 3 }

/-- Witness for C10: in a two-message store the unread inbound message gets
`readAt` stamped and the already-read one is returned unchanged. -/
theorem mark_read_frame_witness :
    (markConversationRead [msg10, msg10read] "a_b" "b" 7)[0]? =
      some { msg10 with readAt := some 7 } ∧
    (markConversationRead [msg10, msg10read] "a_b" "b" 7)[1]? = some msg10read :=
  ⟨((mark_read_frame [msg10, msg10read] "a_b" "b" 7).2.1 0 msg10 rfl).1
      ⟨rfl, rfl, rfl⟩,
    ((mark_read_frame [msg10, msg10read] "a_b" "b" 7).2.1 1 msg10read rfl).2
      (by decide)⟩

end MiniLinkeldlin
